import Mathlib

/-!
Verification of the Datrix frontend against its design specification.

The definitions below are a shallow embedding of the JavaScript sources:

* src/frontend/src/hooks/useWebSocket.js — live log stream subscriber
  (URL derivation, socket handlers, level classification, clearLogs);
* src/frontend/src/App.jsx (services/api part) — launchPipeline, getRuns;
* pages/Dashboard.jsx — handleLaunch and the completion-poll effect;
* pages/DataExplorer.jsx — formatCell and the pagination controls;
* pages/Analytics.jsx — qualityTotals and the data-quality pass rate.

JavaScript strings are Lean String, JS numbers that hold integers are ℤ/ℕ,
fractional JS numbers are ℚ, null/undefined are modelled explicitly, and
React state updates become pure functions on explicit state records.
-/

namespace Datrix

/-! ## Model of the JavaScript string operation text.includes(sub) -/

/-- True when the second list is an initial segment of the first. -/
def leadsWith : List Char → List Char → Bool
  | _, [] => true
  | [], _ :: _ => false
  | a :: l, b :: m => a == b && leadsWith l m

/-- True when the second list occurs contiguously inside the first. -/
def hasSub : List Char → List Char → Bool
  | [], m => leadsWith [] m
  | a :: t, m => leadsWith (a :: t) m || hasSub t m

/-- Model of the JavaScript call s.includes(sub). -/
def includes (s sub : String) : Bool :=
  hasSub s.toList sub.toList

/-- Semantic substring relation: sub occurs contiguously in t. -/
def SubstrOf (sub t : String) : Prop :=
  ∃ pre post, t.toList = pre ++ sub.toList ++ post

theorem leadsWith_iff (m l : List Char) :
    leadsWith l m = true ↔ ∃ post, l = m ++ post := by
  induction m generalizing l with
  | nil =>
    constructor
    · intro _
      exact ⟨l, rfl⟩
    · intro _
      cases l <;> rfl
  | cons b bs ih =>
    cases l with
    | nil =>
      simp [leadsWith]
    | cons a as =>
      rw [show leadsWith (a :: as) (b :: bs) = (a == b && leadsWith as bs) from rfl]
      simp only [Bool.and_eq_true, beq_iff_eq, ih as]
      constructor
      · rintro ⟨rfl, post, rfl⟩
        exact ⟨post, rfl⟩
      · rintro ⟨post, hpost⟩
        rw [List.cons_append] at hpost
        injection hpost with h1 h2
        exact ⟨h1, post, h2⟩

theorem hasSub_iff (l m : List Char) :
    hasSub l m = true ↔ ∃ pre post, l = pre ++ m ++ post := by
  induction l with
  | nil =>
    rw [show hasSub [] m = leadsWith [] m from rfl, leadsWith_iff]
    constructor
    · rintro ⟨post, h⟩
      exact ⟨[], post, h⟩
    · rintro ⟨pre, post, h⟩
      cases pre with
      | nil => exact ⟨post, h⟩
      | cons x xs => simp at h
  | cons a t ih =>
    rw [show hasSub (a :: t) m = (leadsWith (a :: t) m || hasSub t m) from rfl]
    simp only [Bool.or_eq_true, leadsWith_iff, ih]
    constructor
    · rintro (⟨post, h⟩ | ⟨pre, post, h⟩)
      · exact ⟨[], post, h⟩
      · exact ⟨a :: pre, post, by simp [h]⟩
    · rintro ⟨pre, post, h⟩
      cases pre with
      | nil =>
        exact Or.inl ⟨post, by simpa using h⟩
      | cons x xs =>
        right
        rw [List.cons_append, List.cons_append] at h
        injection h with h1 h2
        exact ⟨xs, post, by simpa using h2⟩

theorem substrOf_iff_includes (sub t : String) :
    SubstrOf sub t ↔ includes t sub = true := by
  rw [includes, hasSub_iff, SubstrOf]

/-! ## useWebSocket: level classification of incoming log lines

Embeds ws.onmessage from useWebSocket.js:
  let level = 'INFO';
  if (text.includes('ERROR')) level = 'ERROR';
  else if (text.includes('WARNING')) level = 'WARNING';
  else if (text.includes('COMPLETED SUCCESSFULLY')) level = 'SUCCESS';
-/

/-- Level assigned by the onmessage handler to an incoming text line. -/
def classifyLevel (text : String) : String :=
  if includes text "ERROR" then "ERROR"
  else if includes text "WARNING" then "WARNING"
  else if includes text "COMPLETED SUCCESSFULLY" then "SUCCESS"
  else "INFO"

/-- C1: for every text line received on the live log stream, the subscriber
assigns a level by substring markers in fixed priority order: ERROR if the
text contains "ERROR"; otherwise WARNING if it contains "WARNING"; otherwise
SUCCESS if it contains "COMPLETED SUCCESSFULLY"; otherwise INFO. -/
theorem c1_log_level_priority (t : String) :
    (SubstrOf "ERROR" t → classifyLevel t = "ERROR") ∧
    (¬ SubstrOf "ERROR" t → SubstrOf "WARNING" t → classifyLevel t = "WARNING") ∧
    (¬ SubstrOf "ERROR" t → ¬ SubstrOf "WARNING" t →
      SubstrOf "COMPLETED SUCCESSFULLY" t → classifyLevel t = "SUCCESS") ∧
    (¬ SubstrOf "ERROR" t → ¬ SubstrOf "WARNING" t →
      ¬ SubstrOf "COMPLETED SUCCESSFULLY" t → classifyLevel t = "INFO") := by
  simp only [substrOf_iff_includes, Bool.not_eq_true]
  refine ⟨?_, ?_, ?_, ?_⟩
  · intro h
    simp [classifyLevel, h]
  · intro h1 h2
    simp [classifyLevel, h1, h2]
  · intro h1 h2 h3
    simp [classifyLevel, h1, h2, h3]
  · intro h1 h2 h3
    simp [classifyLevel, h1, h2, h3]

/-- Witness for C1 at the concrete line "step WARNING low disk". -/
theorem c1_log_level_priority_witness :
    classifyLevel "step WARNING low disk" = "WARNING" :=
  (c1_log_level_priority "step WARNING low disk").2.1
    (fun h => absurd ((substrOf_iff_includes _ _).mp h) (by decide))
    ((substrOf_iff_includes _ _).mpr (by decide))

/-! ## useWebSocket: socket handlers acting on the logs state -/

/-- One stored log entry: the text and the level string attached to it. -/
structure LogEntry where
  text : String
  level : String
  deriving DecidableEq

/-- The state owned by the useWebSocket hook: logs and isConnected. -/
structure WsState where
  logs : List LogEntry
  isConnected : Bool
  deriving DecidableEq

/-- Entry appended by ws.onopen. -/
def connectedEntry : LogEntry :=
  { text := "● Connected to pipeline log stream", level := "SUCCESS" }

/-- Entry appended by ws.onclose. -/
def disconnectedEntry : LogEntry :=
  { text := "● Disconnected from log stream", level := "INFO" }

/-- ws.onopen: set isConnected and append the connect marker. -/
def onOpen (s : WsState) : WsState :=
  { logs := s.logs ++ [connectedEntry], isConnected := true }

/-- ws.onmessage: classify the incoming line and append it. -/
def onMessage (s : WsState) (data : String) : WsState :=
  { s with logs := s.logs ++ [{ text := data, level := classifyLevel data }] }

/-- ws.onclose: clear isConnected and append the disconnect marker. -/
def onClose (s : WsState) : WsState :=
  { logs := s.logs ++ [disconnectedEntry], isConnected := false }

/-- ws.onerror: only clears isConnected; the logs are untouched. -/
def onError (s : WsState) : WsState :=
  { s with isConnected := false }

/-- clearLogs callback: resets the logs list to empty. -/
def clearLogsFn (s : WsState) : WsState :=
  { s with logs := [] }

/-- C7: within one run's stream the subscriber preserves publish order —
each received message appends exactly one entry at the tail of the logs
list; the open/message/close handlers never reorder, modify, or remove
previously stored entries (each keeps the old list as an untouched initial
segment); onError leaves the logs unchanged; and the only operation that
removes entries, clearLogs, empties the list entirely. -/
theorem c7_log_order_preserved (s : WsState) (data : String) :
    (onMessage s data).logs = s.logs ++ [{ text := data, level := classifyLevel data }] ∧
    (onOpen s).logs.take s.logs.length = s.logs ∧
    (onOpen s).logs.length = s.logs.length + 1 ∧
    (onMessage s data).logs.take s.logs.length = s.logs ∧
    (onMessage s data).logs.length = s.logs.length + 1 ∧
    (onClose s).logs.take s.logs.length = s.logs ∧
    (onClose s).logs.length = s.logs.length + 1 ∧
    (onError s).logs = s.logs ∧
    (clearLogsFn s).logs = [] := by
  refine ⟨rfl, ?_, by simp [onOpen], ?_, by simp [onMessage], ?_, by simp [onClose],
    rfl, rfl⟩
  · rw [onOpen]
    exact List.take_left s.logs _
  · rw [onMessage]
    exact List.take_left s.logs _
  · rw [onClose]
    exact List.take_left s.logs _

/-- A level string drawn from the closed set of the LogEvent data model. -/
def validLevel (l : String) : Prop :=
  l = "INFO" ∨ l = "WARNING" ∨ l = "ERROR" ∨ l = "SUCCESS"

/-- Every entry of the list carries a level from the closed set. -/
def levelsOk (logs : List LogEntry) : Prop :=
  ∀ e ∈ logs, validLevel e.level

theorem classifyLevel_valid (t : String) : validLevel (classifyLevel t) := by
  rw [classifyLevel]
  split
  · exact Or.inr (Or.inr (Or.inl rfl))
  · split
    · exact Or.inr (Or.inl rfl)
    · split
      · exact Or.inr (Or.inr (Or.inr rfl))
      · exact Or.inl rfl

theorem levelsOk_append_single (logs : List LogEntry) (e : LogEntry)
    (h : levelsOk logs) (he : validLevel e.level) : levelsOk (logs ++ [e]) := by
  intro x hx
  rcases List.mem_append.mp hx with hmem | hmem
  · exact h x hmem
  · rcases List.mem_singleton.mp hmem with rfl
    exact he

/-- C8: every log entry ever stored by the hook — the connect marker, each
classified incoming message, and the disconnect marker — carries a level in
the closed set INFO, WARNING, ERROR, SUCCESS, and this invariant is
preserved by every operation on the logs state: the appends performed by
onopen, onmessage and onclose, the onerror handler, and the reset performed
by clearLogs. -/
theorem c8_levels_closed_set (s : WsState) (data : String)
    (h : levelsOk s.logs) :
    levelsOk (onOpen s).logs ∧ levelsOk (onMessage s data).logs ∧
    levelsOk (onClose s).logs ∧ levelsOk (onError s).logs ∧
    levelsOk (clearLogsFn s).logs := by
  refine ⟨?_, ?_, ?_, h, ?_⟩
  · exact levelsOk_append_single _ _ h (Or.inr (Or.inr (Or.inr rfl)))
  · exact levelsOk_append_single _ _ h (classifyLevel_valid data)
  · exact levelsOk_append_single _ _ h (Or.inl rfl)
  · intro x hx
    simp [clearLogsFn] at hx

/-- A concrete hook state holding one INFO entry, used by the C8 witness. -/
def c8SampleState : WsState :=
  { logs := [{ text := "boot", level := "INFO" }], isConnected := false }

/-- Witness for C8 on a concrete state holding one INFO entry. -/
theorem c8_levels_closed_set_witness :
    levelsOk (onOpen c8SampleState).logs :=
  (c8_levels_closed_set c8SampleState "x"
    (by intro e he; simp [c8SampleState] at he; rw [he]; exact Or.inl rfl)).1

/-! ## DataExplorer: formatCell

Embeds formatCell from pages/DataExplorer.jsx. A JS cell value arriving
from the JSON API is null, undefined, a string, or a number; the display
outcome records which rendering the component produced.
-/

/-- A JavaScript cell value as delivered to formatCell. -/
inductive CellValue where
  | null : CellValue
  | undef : CellValue
  | str : String → CellValue
  | num : ℚ → CellValue
  deriving DecidableEq

/-- Value of a digit list read in base 10. -/
def natOfDigits (cs : List Char) : ℕ :=
  cs.foldl (fun a c => a * 10 + (c.toNat - 48)) 0

/-- Decimal part of the JS Number(string) coercion: digits with an optional
decimal point (sign and surrounding whitespace already removed). Exotic JS
forms (exponents, hex, Infinity) are outside what the page ever feeds in
and are not modelled. -/
def parseDecimal (cs : List Char) : Option ℚ :=
  let intPart := cs.takeWhile Char.isDigit
  let rest := cs.dropWhile Char.isDigit
  match rest with
  | [] => if intPart.isEmpty then none else some (natOfDigits intPart : ℚ)
  | '.' :: frac =>
    if frac.all Char.isDigit && !(intPart.isEmpty && frac.isEmpty) then
      some ((natOfDigits intPart : ℚ) + (natOfDigits frac : ℚ) / (10 ^ frac.length))
    else none
  | _ => none

/-- Model of JS Number(s) on a string: trim whitespace, empty means 0,
otherwise an optional sign followed by a decimal literal; none is NaN. -/
def jsStrToNumber (s : String) : Option ℚ :=
  let cs := ((s.toList.dropWhile Char.isWhitespace).reverse.dropWhile
    Char.isWhitespace).reverse
  match cs with
  | [] => some 0
  | '-' :: t => (parseDecimal t).map (fun q => -q)
  | '+' :: t => parseDecimal t
  | t => parseDecimal t

/-- Model of JS Number(value); none stands for NaN. -/
def jsNumber : CellValue → Option ℚ
  | CellValue.null => some 0
  | CellValue.undef => none
  | CellValue.str s => jsStrToNumber s
  | CellValue.num q => some q

/-- Model of JS String(value) as used by the non-numeric branches. -/
def jsToString : CellValue → String
  | CellValue.null => "null"
  | CellValue.undef => "undefined"
  | CellValue.str s => s
  | CellValue.num q => toString q

/-- The rendering formatCell produces for one cell. -/
inductive CellDisplay where
  | missingMark : CellDisplay
  | intLocale : ℤ → CellDisplay
  | frac2Locale : ℚ → CellDisplay
  | dateSpan : String → CellDisplay
  | plain : String → CellDisplay
  deriving DecidableEq

/-- The fall-through tail of formatCell: the date check and the final
String(value) rendering. -/
def formatCellTail (value : CellValue) (colType : String) : CellDisplay :=
  if colType = "date" then CellDisplay.dateSpan (jsToString value)
  else CellDisplay.plain (jsToString value)

/-- Embeds formatCell: the missing-value guard, then the numeric branch
(integer values with no fraction digits, fractional values with exactly two
via the toLocaleString options), then the date and plain branches. -/
def formatCell (value : CellValue) (colType : String) : CellDisplay :=
  if value = CellValue.null ∨ value = CellValue.undef ∨ value = CellValue.str "" then
    CellDisplay.missingMark
  else if colType = "numeric" then
    match jsNumber value with
    | some q =>
      if q.den = 1 then CellDisplay.intLocale q.num else CellDisplay.frac2Locale q
    | none => formatCellTail value colType
  else formatCellTail value colType

/-- C4: formatCell shows the missing-value placeholder exactly when the cell
value is null, undefined, or the empty string; the literal string "0" in a
numeric column renders as the number 0, never as missing; and a parsed
numeric with integer value is formatted with no fraction digits while a
non-integer numeric gets exactly two fraction digits. -/
theorem c4_format_cell_missing_and_numeric (value : CellValue) (colType : String) :
    (formatCell value colType = CellDisplay.missingMark ↔
      (value = CellValue.null ∨ value = CellValue.undef ∨ value = CellValue.str "")) ∧
    formatCell (CellValue.str "0") "numeric" = CellDisplay.intLocale 0 ∧
    (∀ q : ℚ,
      ¬ (value = CellValue.null ∨ value = CellValue.undef ∨ value = CellValue.str "") →
      jsNumber value = some q →
      (q.den = 1 → formatCell value "numeric" = CellDisplay.intLocale q.num) ∧
      (q.den ≠ 1 → formatCell value "numeric" = CellDisplay.frac2Locale q)) := by
  refine ⟨?_, by decide, ?_⟩
  · constructor
    · intro h
      by_contra hc
      rw [formatCell, if_neg hc] at h
      split at h
      · split at h
        · split at h
          · exact CellDisplay.noConfusion h
          · exact CellDisplay.noConfusion h
        · rw [formatCellTail] at h
          split at h
          · exact CellDisplay.noConfusion h
          · exact CellDisplay.noConfusion h
      · rw [formatCellTail] at h
        split at h
        · exact CellDisplay.noConfusion h
        · exact CellDisplay.noConfusion h
    · intro h
      rw [formatCell, if_pos h]
  · intro q hne hq
    constructor
    · intro hden
      rw [formatCell, if_neg hne, if_pos rfl, hq]
      simp [hden]
    · intro hden
      rw [formatCell, if_neg hne, if_pos rfl, hq]
      simp [hden]

/-- The reduced rational 3/2, used as the C4 witness value. -/
def sampleFrac : ℚ := ⟨3, 2, by decide, by decide⟩

/-- Witness for C4 at the fractional numeric value 3/2. -/
theorem c4_format_cell_missing_and_numeric_witness :
    formatCell (CellValue.num sampleFrac) "numeric" = CellDisplay.frac2Locale sampleFrac :=
  ((c4_format_cell_missing_and_numeric (CellValue.num sampleFrac) "numeric").2.2
    sampleFrac (by decide) rfl).2 (by decide)

/-! ## services/api: launchPipeline, request, getRuns -/

/-- JS Boolean.prototype.toString as used for the form-data fields. -/
def boolToString (b : Bool) : String :=
  if b then "true" else "false"

/-- An HTTP request assembled by the api service: target URL, method, and
the multipart form fields (name, value). -/
structure ApiRequest where
  url : String
  method : String
  form : List (String × String)
  deriving DecidableEq

/-- Embeds launchPipeline(file, dryRun, autoDetect): appends the file field
when a file is given, always appends dry_run and auto_detect as the string
renderings of the booleans, and posts to /pipeline/run. -/
def launchPipeline (file : Option String) (dryRun autoDetect : Bool) : ApiRequest :=
  { url := "/pipeline/run"
    method := "POST"
    form :=
      (match file with
       | some f => [("file", f)]
       | none => []) ++
      [("dry_run", boolToString dryRun), ("auto_detect", boolToString autoDetect)] }

/-- The parsed JSON body of a successful POST /pipeline/run. -/
structure LaunchResponse where
  run_id : ℕ
  deriving DecidableEq

/-- An HTTP response as seen by the request helper in services/api. -/
structure HttpResponse where
  ok : Bool
  body : LaunchResponse
  detail : String
  deriving DecidableEq

/-- Embeds the request helper: a response with ok status resolves to its
parsed JSON body, otherwise the helper throws the error detail. -/
def requestResult (resp : HttpResponse) : Except String LaunchResponse :=
  if resp.ok then Except.ok resp.body else Except.error resp.detail

/-- A PipelineRun snapshot as returned by GET /pipeline/runs. -/
structure RunInfo where
  id : ℕ
  status : String
  total_valid : Option ℕ
  total_rejected : Option ℕ
  deriving DecidableEq

/-- Server model of getRuns(limit, offset): the run list is held
most-recent-first and the endpoint returns an offset window of it. -/
def getRunsModel (allRuns : List RunInfo) (limit offset : ℕ) : List RunInfo :=
  (allRuns.drop offset).take limit

/-! ## Dashboard: handleLaunch and the completion poll -/

/-- The Dashboard component state touched by launch and poll. -/
structure DashState where
  file : Option String
  dryRun : Bool
  autoDetect : Bool
  isRunning : Bool
  currentRunId : Option ℕ
  lastRun : Option RunInfo
  error : String
  logs : List LogEntry
  deriving DecidableEq

/-- The translated dashboard.uploadError message shown by the guard. -/
def uploadErrorText : String :=
  "dashboard.uploadError"

/-- Embeds Dashboard.handleLaunch. The outcome argument is the result of
the awaited launchPipeline call; the returned flag records whether
launchPipeline was invoked at all. On the guard (no file and no
auto-detect) only the error message changes; otherwise the error and log
buffer are cleared, isRunning is set, and the outcome either stores the
returned run id or records the thrown message and resets isRunning. -/
def handleLaunch (s : DashState) (outcome : Except String LaunchResponse) :
    DashState × Bool :=
  if s.file.isNone && !s.autoDetect then
    ({ s with error := uploadErrorText }, false)
  else
    match outcome with
    | Except.ok body =>
      ({ s with error := "", logs := [], isRunning := true, currentRunId := some body.run_id }, true)
    | Except.error msg =>
      ({ s with error := msg, logs := [], isRunning := false }, true)

/-- Embeds one tick of the Dashboard completion-poll effect: when a run is
active, fetch getRuns(1, 0) and, if the first run matches the launched id
and is terminal, record it as lastRun and leave the running state. -/
def pollTick (s : DashState) (allRuns : List RunInfo) : DashState :=
  match s.currentRunId, s.isRunning with
  | some rid, true =>
    match getRunsModel allRuns 1 0 with
    | [] => s
    | run :: _ =>
      if run.id = rid then
        if run.status = "SUCCESS" ∨ run.status = "FAILED" then
          { s with lastRun := some run, isRunning := false }
        else s
      else s
  | _, _ => s

/-! ## useWebSocket: connection address and socket replacement -/

/-- Protocol and host of a base URL (either VITE_API_URL or the window
location). -/
structure UrlParts where
  protocol : String
  host : String
  deriving DecidableEq

/-- Embeds the wsUrl computation of useWebSocket.connect: derive the socket
scheme from the base URL protocol and target /ws/logs/ keyed by run id;
the base is VITE_API_URL when set, the window location otherwise. -/
def wsLogUrl (apiUrl : Option UrlParts) (window : UrlParts) (id : String) : String :=
  match apiUrl with
  | some url =>
    (if url.protocol = "https:" then "wss:" else "ws:") ++ "//" ++ url.host
      ++ "/ws/logs/" ++ id
  | none =>
    (if window.protocol = "https:" then "wss:" else "ws:") ++ "//" ++ window.host
      ++ "/ws/logs/" ++ id

/-- An operation performed by connect on WebSocket objects; sockets are
named by opaque handles. -/
inductive SockAction where
  | close : ℕ → SockAction
  | openSock : String → SockAction
  deriving DecidableEq

/-- Embeds the socket handling in connect(id): the previous socket, when
present, is closed first, then a new socket is opened at the derived URL;
the list records the order of the operations. -/
def connectActions (current : Option ℕ) (url : String) : List SockAction :=
  (match current with
   | some sock => [SockAction.close sock]
   | none => []) ++ [SockAction.openSock url]

/-- C2: every launchPipeline(file, dryRun, autoDetect) call posts to
/pipeline/run with form data that always carries dry_run and auto_detect as
the string renderings of the booleans, carries a file field exactly when a
file is given, and resolves to the parsed JSON body of an ok response, from
which the Dashboard stores result.run_id while remaining in the running
state rather than waiting for completion. -/
theorem c2_launch_pipeline_request (file : Option String) (dryRun autoDetect : Bool)
    (s : DashState) (body : LaunchResponse) :
    (launchPipeline file dryRun autoDetect).url = "/pipeline/run" ∧
    (launchPipeline file dryRun autoDetect).method = "POST" ∧
    ("dry_run", boolToString dryRun) ∈ (launchPipeline file dryRun autoDetect).form ∧
    ("auto_detect", boolToString autoDetect) ∈ (launchPipeline file dryRun autoDetect).form ∧
    ((∃ v, ("file", v) ∈ (launchPipeline file dryRun autoDetect).form) ↔ file.isSome = true) ∧
    (∀ f, file = some f → ("file", f) ∈ (launchPipeline file dryRun autoDetect).form) ∧
    (∀ resp : HttpResponse, resp.ok = true → requestResult resp = Except.ok resp.body) ∧
    ((s.file.isSome = true ∨ s.autoDetect = true) →
      (handleLaunch s (Except.ok body)).1.currentRunId = some body.run_id ∧
      (handleLaunch s (Except.ok body)).1.isRunning = true) := by
  refine ⟨rfl, rfl, ?_, ?_, ?_, ?_, ?_, ?_⟩
  · cases file <;> simp [launchPipeline]
  · cases file <;> simp [launchPipeline]
  · cases file <;> simp [launchPipeline]
  · intro f hf
    subst hf
    simp [launchPipeline]
  · intro resp h
    simp [requestResult, h]
  · intro h
    cases hf : s.file with
    | none =>
      rcases h with h | h
      · rw [hf] at h
        simp at h
      · simp [handleLaunch, hf, h]
    | some f =>
      simp [handleLaunch, hf]

/-- A concrete Dashboard state with auto-detect enabled, for witnesses. -/
def sampleDash : DashState where
  file := none
  dryRun := false
  autoDetect := true
  isRunning := false
  currentRunId := none
  lastRun := none
  error := ""
  logs := []

/-- Witness for C2: a successful launch on the sample state stores run id 42. -/
theorem c2_launch_pipeline_request_witness :
    (handleLaunch sampleDash (Except.ok ⟨42⟩)).1.currentRunId = some 42 ∧
    (handleLaunch sampleDash (Except.ok ⟨42⟩)).1.isRunning = true :=
  (c2_launch_pipeline_request none false true sampleDash ⟨42⟩).2.2.2.2.2.2.2
    (Or.inr rfl)

/-- C5: the Dashboard launches only when a source descriptor is present —
with no file and auto-detect off, handleLaunch records the upload error and
changes nothing else, never calling launchPipeline and never entering the
running state; otherwise it clears the error and the log buffer and calls
the launch, and a thrown launch error is recorded while isRunning is reset
to false. -/
theorem c5_launch_guard (s : DashState) (outcome : Except String LaunchResponse) :
    (s.file = none → s.autoDetect = false →
      handleLaunch s outcome = ({ s with error := uploadErrorText }, false)) ∧
    ((s.file.isSome = true ∨ s.autoDetect = true) →
      (handleLaunch s outcome).2 = true ∧
      (handleLaunch s outcome).1.logs = [] ∧
      (∀ msg, outcome = Except.error msg →
        (handleLaunch s outcome).1.error = msg ∧
        (handleLaunch s outcome).1.isRunning = false) ∧
      (∀ body, outcome = Except.ok body →
        (handleLaunch s outcome).1.error = "" ∧
        (handleLaunch s outcome).1.isRunning = true)) := by
  constructor
  · intro h1 h2
    simp [handleLaunch, h1, h2]
  · intro h
    have hcase : ∀ r : DashState × Bool,
        handleLaunch s outcome = r →
        (match outcome with
         | Except.ok body =>
            ({ s with error := "", logs := [], isRunning := true, currentRunId := some body.run_id }, true)
         | Except.error msg =>
            ({ s with error := msg, logs := [], isRunning := false }, true)) = r := by
      intro r hr
      rw [← hr, handleLaunch.eq_def, if_neg]
      intro hc
      rcases h with h | h
      · rw [Bool.and_eq_true] at hc
        rw [Option.isNone_iff_eq_none] at hc
        rw [hc.1] at h
        simp at h
      · rw [Bool.and_eq_true] at hc
        rw [h] at hc
        simp at hc
    have heq := hcase _ rfl
    cases outcome with
    | ok body =>
      rw [← heq]
      exact ⟨rfl, rfl, fun msg hmsg => by simp at hmsg, fun b hb => by
        injection hb with hb
        subst hb
        exact ⟨rfl, rfl⟩⟩
    | error msg =>
      rw [← heq]
      exact ⟨rfl, rfl, fun m hm => by
        injection hm with hm
        subst hm
        exact ⟨rfl, rfl⟩, fun b hb => by simp at hb⟩

/-- A concrete Dashboard state with no file and no auto-detect. -/
def sampleDashEmpty : DashState where
  file := none
  dryRun := false
  autoDetect := false
  isRunning := false
  currentRunId := none
  lastRun := none
  error := ""
  logs := []

/-- Witness for C5: on the empty sample state the guard fires. -/
theorem c5_launch_guard_witness :
    handleLaunch sampleDashEmpty (Except.error "boom") =
      ({ sampleDashEmpty with error := uploadErrorText }, false) :=
  (c5_launch_guard sampleDashEmpty (Except.error "boom")).1 rfl rfl

/-- C3: the Dashboard completion poll fetches the run list with limit 1 and
offset 0 (its outcome depends only on the first run of the most-recent-first
list), and it leaves the running state — recording the run as lastRun —
exactly when that first run carries the launched id and a terminal SUCCESS
or FAILED status; a first run that is PENDING or RUNNING, or has a
different id, leaves the state untouched. -/
theorem c3_completion_poll (s : DashState) (allRuns : List RunInfo) (rid : ℕ)
    (hrun : s.isRunning = true) (hid : s.currentRunId = some rid) :
    pollTick s allRuns = pollTick s (allRuns.take 1) ∧
    ((pollTick s allRuns).isRunning = false ↔
      ∃ run, allRuns.head? = some run ∧ run.id = rid ∧
        (run.status = "SUCCESS" ∨ run.status = "FAILED")) ∧
    (∀ run, allRuns.head? = some run → run.id = rid →
      (run.status = "SUCCESS" ∨ run.status = "FAILED") →
      (pollTick s allRuns).lastRun = some run ∧
      (pollTick s allRuns).isRunning = false) ∧
    (∀ run, allRuns.head? = some run →
      ¬ (run.id = rid ∧ (run.status = "SUCCESS" ∨ run.status = "FAILED")) →
      pollTick s allRuns = s) ∧
    (allRuns = [] → pollTick s allRuns = s) := by
  cases allRuns with
  | nil =>
    have hps : pollTick s [] = s := by
      simp [pollTick, hid, hrun, getRunsModel]
    refine ⟨rfl, ?_, ?_, ?_, fun _ => hps⟩
    · rw [hps, hrun]
      simp
    · intro run h
      simp at h
    · intro run h
      simp at h
  | cons r rest =>
    have hps : pollTick s (r :: rest) =
        (if r.id = rid then
          (if r.status = "SUCCESS" ∨ r.status = "FAILED" then
            { s with lastRun := some r, isRunning := false } else s)
         else s) := by
      simp [pollTick, hid, hrun, getRunsModel]
    have hps1 : pollTick s ((r :: rest).take 1) =
        (if r.id = rid then
          (if r.status = "SUCCESS" ∨ r.status = "FAILED" then
            { s with lastRun := some r, isRunning := false } else s)
         else s) := by
      simp [pollTick, hid, hrun, getRunsModel]
    refine ⟨hps.trans hps1.symm, ?_, ?_, ?_, ?_⟩
    · rw [hps]
      by_cases hidr : r.id = rid
      · by_cases hst : r.status = "SUCCESS" ∨ r.status = "FAILED"
        · rw [if_pos hidr, if_pos hst]
          constructor
          · intro _
            exact ⟨r, rfl, hidr, hst⟩
          · intro _
            rfl
        · rw [if_pos hidr, if_neg hst, hrun]
          constructor
          · intro h
            exact Bool.noConfusion h
          · rintro ⟨run, hr2, _, hst2⟩
            rw [List.head?_cons] at hr2
            injection hr2 with hr2
            subst hr2
            exact absurd hst2 hst
      · rw [if_neg hidr, hrun]
        constructor
        · intro h
          exact Bool.noConfusion h
        · rintro ⟨run, hr2, hid2, _⟩
          rw [List.head?_cons] at hr2
          injection hr2 with hr2
          subst hr2
          exact absurd hid2 hidr
    · intro run h2 hid2 hst2
      rw [List.head?_cons] at h2
      injection h2 with h2
      subst h2
      rw [hps, if_pos hid2, if_pos hst2]
      exact ⟨rfl, rfl⟩
    · intro run h2 hneg
      rw [List.head?_cons] at h2
      injection h2 with h2
      subst h2
      by_cases hidr : r.id = rid
      · by_cases hst : r.status = "SUCCESS" ∨ r.status = "FAILED"
        · exact absurd ⟨hidr, hst⟩ hneg
        · rw [hps, if_pos hidr, if_neg hst]
      · rw [hps, if_neg hidr]
    · intro h
      exact List.noConfusion h

/-- A Dashboard state mid-run with run id 7, for the C3 witness. -/
def pollSampleState : DashState where
  file := none
  dryRun := false
  autoDetect := true
  isRunning := true
  currentRunId := some 7
  lastRun := none
  error := ""
  logs := []

/-- A terminal run snapshot with id 7, for the C3 witness. -/
def pollSampleRun : RunInfo where
  id := 7
  status := "SUCCESS"
  total_valid := some 2
  total_rejected := some 0

/-- Witness for C3: polling with the matching terminal run ends the running
state and records the run. -/
theorem c3_completion_poll_witness :
    (pollTick pollSampleState [pollSampleRun]).lastRun = some pollSampleRun ∧
    (pollTick pollSampleState [pollSampleRun]).isRunning = false :=
  (c3_completion_poll pollSampleState [pollSampleRun] 7 rfl rfl).2.2.1
    pollSampleRun rfl rfl (Or.inl rfl)

/-- C6: for every run id the subscriber connects to /ws/logs/:id, taking
scheme wss: exactly when the base URL protocol is https: and ws: otherwise,
with the base URL being VITE_API_URL when set and the window location
otherwise; on reconnect the previous socket, when present, is closed before
the new socket is opened. -/
theorem c6_ws_address (apiUrl : Option UrlParts) (w : UrlParts) (id : String)
    (prev : Option ℕ) :
    (∀ u, apiUrl = some u →
      wsLogUrl apiUrl w id =
        (if u.protocol = "https:" then "wss:" else "ws:") ++ "//" ++ u.host
          ++ "/ws/logs/" ++ id) ∧
    (apiUrl = none →
      wsLogUrl apiUrl w id =
        (if w.protocol = "https:" then "wss:" else "ws:") ++ "//" ++ w.host
          ++ "/ws/logs/" ++ id) ∧
    (∀ sock, prev = some sock →
      connectActions prev (wsLogUrl apiUrl w id) =
        [SockAction.close sock, SockAction.openSock (wsLogUrl apiUrl w id)]) ∧
    (prev = none →
      connectActions prev (wsLogUrl apiUrl w id) =
        [SockAction.openSock (wsLogUrl apiUrl w id)]) ∧
    (connectActions prev (wsLogUrl apiUrl w id)).getLast? =
      some (SockAction.openSock (wsLogUrl apiUrl w id)) := by
  refine ⟨?_, ?_, ?_, ?_, ?_⟩
  · intro u hu
    subst hu
    rfl
  · intro hu
    subst hu
    rfl
  · intro sock hs
    subst hs
    rfl
  · intro hs
    subst hs
    rfl
  · cases prev <;> rfl

/-- The production base URL used by the C6 witness. -/
def sampleApiUrl : UrlParts where
  protocol := "https:"
  host := "api.example.com"

/-- The window location used by the C6 witness. -/
def sampleWindow : UrlParts where
  protocol := "http:"
  host := "localhost:5173"

/-- Witness for C6: reconnecting over socket 3 closes it before opening the
new per-run address. -/
theorem c6_ws_address_witness :
    connectActions (some 3) (wsLogUrl (some sampleApiUrl) sampleWindow "r1") =
      [SockAction.close 3,
        SockAction.openSock (wsLogUrl (some sampleApiUrl) sampleWindow "r1")] :=
  (c6_ws_address (some sampleApiUrl) sampleWindow "r1" (some 3)).2.2.1 3 rfl

/-! ## Analytics: quality totals and the pass-rate card -/

/-- The totals accumulated by the Analytics reduce over the quality runs. -/
structure QualityTotals where
  valid : ℕ
  rejected : ℕ
  deriving DecidableEq

/-- Embeds Analytics.qualityTotals: a reduce over the quality run list
starting from zero totals, using 0 for an absent total_valid or
total_rejected field. -/
def qualityTotals (quality : List RunInfo) : QualityTotals :=
  quality.foldl
    (fun acc r =>
      { valid := acc.valid + r.total_valid.getD 0,
        rejected := acc.rejected + r.total_rejected.getD 0 })
    { valid := 0, rejected := 0 }

/-- Embeds the data-quality card: the pass-rate division is evaluated only
under the render guard valid + rejected > 0; none means the card (and the
division) is not rendered. -/
def passRateDisplay (quality : List RunInfo) : Option ℚ :=
  let tot := qualityTotals quality
  if tot.valid + tot.rejected > 0 then
    some ((tot.valid : ℚ) / ((tot.valid : ℚ) + (tot.rejected : ℚ)))
  else none

theorem qualityTotals_foldl (quality : List RunInfo) (a : QualityTotals) :
    quality.foldl
      (fun acc r =>
        { valid := acc.valid + r.total_valid.getD 0,
          rejected := acc.rejected + r.total_rejected.getD 0 })
      a =
    { valid := a.valid + (quality.map (fun r => r.total_valid.getD 0)).sum,
      rejected := a.rejected + (quality.map (fun r => r.total_rejected.getD 0)).sum } := by
  induction quality generalizing a with
  | nil => simp
  | cons r rest ih =>
    rw [List.foldl_cons, ih]
    simp [Nat.add_assoc]

/-- C9: the pass-rate division of the data-quality card runs only under the
render guard, so whenever a rate is computed its denominator is strictly
positive and it really is valid / (valid + rejected); and the totals are
plain sums in which a run with an absent total_valid or total_rejected
field contributes 0 instead of poisoning the result. -/
theorem c9_quality_pass_rate (quality : List RunInfo) :
    (∀ rate : ℚ, passRateDisplay quality = some rate →
      0 < (qualityTotals quality).valid + (qualityTotals quality).rejected ∧
      rate = ((qualityTotals quality).valid : ℚ) /
        (((qualityTotals quality).valid : ℚ) + ((qualityTotals quality).rejected : ℚ))) ∧
    (qualityTotals quality).valid = (quality.map (fun r => r.total_valid.getD 0)).sum ∧
    (qualityTotals quality).rejected = (quality.map (fun r => r.total_rejected.getD 0)).sum := by
  refine ⟨?_, ?_, ?_⟩
  · intro rate h
    rw [passRateDisplay] at h
    by_cases hpos : 0 < (qualityTotals quality).valid + (qualityTotals quality).rejected
    · refine ⟨hpos, ?_⟩
      rw [if_pos hpos] at h
      injection h with h
      exact h.symm
    · rw [if_neg hpos] at h
      exact Option.noConfusion h
  · rw [qualityTotals, qualityTotals_foldl]
    simp
  · rw [qualityTotals, qualityTotals_foldl]
    simp

/-- A quality list with one terminal run, for the C9 witness. -/
def sampleQuality : List RunInfo :=
  [{ id := 1, status := "SUCCESS", total_valid := some 3, total_rejected := some 1 }]

/-- Witness for C9: on the sample list the guard holds and the denominator
is positive. -/
theorem c9_quality_pass_rate_witness :
    0 < (qualityTotals sampleQuality).valid + (qualityTotals sampleQuality).rejected :=
  ((c9_quality_pass_rate sampleQuality).1
    (((qualityTotals sampleQuality).valid : ℚ) /
      (((qualityTotals sampleQuality).valid : ℚ) +
        ((qualityTotals sampleQuality).rejected : ℚ)))
    (by rw [passRateDisplay, if_pos (by decide)])).1

/-! ## DataExplorer: pagination controls -/

/-- The start variable of the page-button window:
max(1, min(page - 2, totalPages - 4)). -/
def pageStart (page totalPages : ℤ) : ℤ :=
  max 1 (min (page - 2) (totalPages - 4))

/-- Embeds the Array.from of the pagination: min(5, totalPages) slots, slot
i holding page number start + i, or null when that exceeds totalPages. -/
def pageButtonSlots (page totalPages : ℤ) : List (Option ℤ) :=
  (List.range (min 5 totalPages).toNat).map (fun (i : ℕ) =>
    if pageStart page totalPages + (i : ℤ) > totalPages then none
    else some (pageStart page totalPages + (i : ℤ)))

/-- The page buttons actually rendered: React drops the null slots. -/
def renderedPageButtons (page totalPages : ℤ) : List ℤ :=
  (pageButtonSlots page totalPages).filterMap id

/-- The disabled attribute of the previous-page button: page <= 1. -/
def prevDisabled (page : ℤ) : Bool :=
  decide (page ≤ 1)

/-- The disabled attribute of the next-page button: page >= totalPages. -/
def nextDisabled (page totalPages : ℤ) : Bool :=
  decide (page ≥ totalPages)

/-- Clicking the previous-page button: setPage(p => p - 1). -/
def clickPrev (page : ℤ) : ℤ :=
  page - 1

/-- Clicking the next-page button: setPage(p => p + 1). -/
def clickNext (page : ℤ) : ℤ :=
  page + 1

theorem filterMap_id_map_ite (f : ℕ → ℤ) (c : ℤ) (l : List ℕ)
    (h : ∀ i ∈ l, ¬ f i > c) :
    ((l.map (fun i => if f i > c then none else some (f i))).filterMap id) = l.map f := by
  induction l with
  | nil => rfl
  | cons a t ih =>
    rw [List.map_cons, if_neg (h a (List.mem_cons_self a t)), List.map_cons,
      ← ih (fun i hi => h i (List.mem_cons_of_mem a hi))]
    rfl

/-- C10: for every current page p with 1 ≤ p ≤ totalPages, the pagination
renders exactly min(5, totalPages) consecutive page buttons, all numbered
within [1, totalPages] and always including p; the previous-page button is
disabled exactly when p ≤ 1 and the next-page button exactly when
p ≥ totalPages, so the enabled controls can never drive the page outside
[1, totalPages]. -/
theorem c10_pagination (page totalPages : ℤ)
    (h1 : 1 ≤ page) (h2 : page ≤ totalPages) :
    (renderedPageButtons page totalPages).length = (min 5 totalPages).toNat ∧
    (∀ b ∈ renderedPageButtons page totalPages, 1 ≤ b ∧ b ≤ totalPages) ∧
    page ∈ renderedPageButtons page totalPages ∧
    (∀ i : ℕ, ∀ a b : ℤ,
      (renderedPageButtons page totalPages).get? i = some a →
      (renderedPageButtons page totalPages).get? (i + 1) = some b → b = a + 1) ∧
    (prevDisabled page = true ↔ page ≤ 1) ∧
    (nextDisabled page totalPages = true ↔ totalPages ≤ page) ∧
    (prevDisabled page = false → 1 ≤ clickPrev page ∧ clickPrev page ≤ totalPages) ∧
    (nextDisabled page totalPages = false →
      1 ≤ clickNext page ∧ clickNext page ≤ totalPages) := by
  have hkey : ∀ i : ℕ, i < (min 5 totalPages).toNat →
      ¬ pageStart page totalPages + (i : ℤ) > totalPages := by
    intro i hi
    rw [pageStart]
    omega
  have hre : renderedPageButtons page totalPages =
      (List.range (min 5 totalPages).toNat).map
        (fun (i : ℕ) => pageStart page totalPages + (i : ℤ)) := by
    rw [renderedPageButtons, pageButtonSlots]
    exact filterMap_id_map_ite _ _ _ (fun i hi => hkey i (List.mem_range.mp hi))
  refine ⟨?_, ?_, ?_, ?_, ?_, ?_, ?_, ?_⟩
  · rw [hre, List.length_map, List.length_range]
  · intro b hb
    rw [hre] at hb
    rcases List.mem_map.mp hb with ⟨i, hi, rfl⟩
    have hilt := List.mem_range.mp hi
    rw [pageStart]
    omega
  · rw [hre]
    refine List.mem_map.mpr
      ⟨(page - pageStart page totalPages).toNat, List.mem_range.mpr ?_, ?_⟩
    · rw [pageStart]
      omega
    · rw [pageStart]
      omega
  · intro i a b ha hb
    rw [hre, List.get?_map] at ha hb
    by_cases hi : i < (min 5 totalPages).toNat
    · by_cases hj : i + 1 < (min 5 totalPages).toNat
      · rw [List.get?_range hi] at ha
        rw [List.get?_range hj] at hb
        injection ha with ha
        injection hb with hb
        rw [← ha, ← hb]
        push_cast
        ring
      · rw [List.get?_eq_none.mpr (by rw [List.length_range]; omega)] at hb
        exact Option.noConfusion hb
    · rw [List.get?_eq_none.mpr (by rw [List.length_range]; omega)] at ha
      exact Option.noConfusion ha
  · rw [prevDisabled]
    exact decide_eq_true_iff
  · rw [nextDisabled]
    exact decide_eq_true_iff
  · intro h
    rw [prevDisabled, decide_eq_false_iff_not] at h
    rw [clickPrev]
    omega
  · intro h
    rw [nextDisabled, decide_eq_false_iff_not] at h
    rw [clickNext]
    omega

/-- Witness for C10 at page 2 of 7: the current page is rendered. -/
theorem c10_pagination_witness : (2 : ℤ) ∈ renderedPageButtons 2 7 :=
  (c10_pagination 2 7 (by decide) (by decide)).2.2.1

end Datrix
